import Mathlib

/-!
Shallow embedding of the pocket-pal Notes store (src/notes.py) and the
note-related command layer (src/actions_notes.py).

Python objects are modelled as follows.
* A `Note` is a record of its fields.  `contacts` starts as a Python `set()`
  when no contact list is supplied at creation and stays the supplied list
  otherwise; we keep the elements in a `List String` plus a flag
  `contactsIsSet` recording which of the two Python types the field holds.
  A Python set is represented by a duplicate-free list: `set.add` inserts
  the element only when it is not already present.
* The `NoteBook` (a `UserDict`) is an insertion-ordered association list
  from title to `Note`; assignment to an existing key updates the entry in
  place, assignment to a fresh key appends at the end, exactly like a
  Python dict.
* `raise` is modelled with `Except.error` carrying a `PyError`; a Python
  function body that instead *returns* an exception object (as
  `NoteBook.edit`/`NoteBook.replace` do on a missing title) is modelled by
  an ordinary return value of type `PyRet`.
* `datetime.now()` is threaded in as an explicit `now : String` argument.
-/

deriving instance DecidableEq for Except

/-- Python exception values raised (or returned) by the code under study. -/
inductive PyError where
  | keyError (msg : String)
  | valueError (msg : String)
  | attributeError (msg : String)
  | notFoundWarning (msg : String)
deriving DecidableEq, Repr

/-- The value a Python method call returns to its caller: `None`, or an
exception *object* returned (not raised) as a normal value. -/
inductive PyRet where
  | retNone
  | retExc (e : PyError)
deriving DecidableEq, Repr

/-- A note record, from `Note.__init__` in src/notes.py. -/
structure Note where
  title : String
  body : String
  creation_date : String
  tags : List String
  contacts : List String
  contactsIsSet : Bool
deriving DecidableEq, Repr

/-- `Note.__init__`: `tags if tags else []` and `contacts if contacts else set()`
(Python truthiness: `None` and the empty list are falsy). -/
def Note.init (now title body : String) (tags contacts : Option (List String)) : Note :=
  { title := title
    body := body
    creation_date := now
    tags := match tags with
      | some t => if t.isEmpty then [] else t
      | none => []
    contacts := match contacts with
      | some c => if c.isEmpty then [] else c
      | none => []
    contactsIsSet := match contacts with
      | some c => c.isEmpty
      | none => true }

/-- `Note.edit`: appends a space and the new text to the body. -/
def Note.edit (n : Note) (newBody : String) : Note :=
  { n with body := n.body ++ " " ++ newBody }

/-- `Note.replace`: overwrites the body. -/
def Note.replace (n : Note) (newBody : String) : Note :=
  { n with body := newBody }

/-- `Note.attach_to_contact`: `self.contacts.add(contact_name)`.  On a Python
set this inserts the name if absent; if `contacts` was supplied as a list at
creation, a list has no `add` method and an `AttributeError` is raised. -/
def Note.attach_to_contact (n : Note) (contact_name : String) : Except PyError Note :=
  if n.contactsIsSet then
    Except.ok { n with contacts :=
      if n.contacts.contains contact_name then n.contacts else n.contacts ++ [contact_name] }
  else
    Except.error (PyError.attributeError "list object has no attribute add")

/-- `Note.add_tag`: the guard `len(tag) < 0 and len(tag) > 20` from the source,
then `self.tags.append(tag)`. -/
def Note.add_tag (n : Note) (tag : String) : Except PyError Note :=
  if tag.length < 0 ∧ tag.length > 20 then
    Except.error (PyError.valueError "Tag must be between 1 and 20 characters")
  else
    Except.ok { n with tags := n.tags ++ [tag] }

/-- `Note.remove_tag`: raises if the tag is absent, else `self.tags.remove(tag)`
(Python `list.remove` deletes the first occurrence only). -/
def Note.remove_tag (n : Note) (tag : String) : Except PyError Note :=
  if n.tags.contains tag then
    Except.ok { n with tags := n.tags.erase tag }
  else
    Except.error (PyError.valueError ("Tag " ++ tag ++ " not found"))

/-- The `NoteBook` mapping: an insertion-ordered association list. -/
abbrev NoteBook := List (String × Note)

/-- Python dict assignment `d[k] = v`: update in place if the key exists,
append otherwise. -/
def dictSet : NoteBook → String → Note → NoteBook
  | [], k, v => [(k, v)]
  | p :: rest, k, v => if p.1 = k then (k, v) :: rest else p :: dictSet rest k v

/-- Python `d.get(k)` / `k in d` support: lookup by key. -/
def dictGet : NoteBook → String → Option Note
  | [], _ => none
  | p :: rest, k => if p.1 = k then some p.2 else dictGet rest k

/-- Python `del d[k]` on a present key: drop the entry. -/
def dictDelete : NoteBook → String → NoteBook
  | [], _ => []
  | p :: rest, k => if p.1 = k then rest else p :: dictDelete rest k

namespace NoteBook

/-- Python `self.data.values()` as a list, in store order. -/
def values (nb : NoteBook) : List Note :=
  nb.map Prod.snd

/-- `NoteBook.add`: `self.data[title] = Note(title, body, tags, contacts)`. -/
def add (nb : NoteBook) (title body : String) (tags contacts : Option (List String))
    (now : String) : NoteBook :=
  dictSet nb title (Note.init now title body tags contacts)

/-- `NoteBook.delete`: raises `KeyError` when the title is absent, else deletes. -/
def delete (nb : NoteBook) (title : String) : Except PyError NoteBook :=
  if (dictGet nb title).isSome then
    Except.ok (dictDelete nb title)
  else
    Except.error (PyError.keyError ("Note with title " ++ title ++ " not found"))

/-- `NoteBook.edit`: when the title is absent the source *returns* the
`KeyError` object instead of raising it; otherwise it calls `Note.edit`
(which returns `None`) on the stored note. -/
def edit (nb : NoteBook) (title newBody : String) : PyRet × NoteBook :=
  match dictGet nb title with
  | none => (PyRet.retExc (PyError.keyError ("Note with title " ++ title ++ " not found")), nb)
  | some n => (PyRet.retNone, dictSet nb title (Note.edit n newBody))

/-- `NoteBook.replace`: same `return KeyError(...)` shape as `NoteBook.edit`. -/
def replace (nb : NoteBook) (title newBody : String) : PyRet × NoteBook :=
  match dictGet nb title with
  | none => (PyRet.retExc (PyError.keyError ("Note with title " ++ title ++ " not found")), nb)
  | some n => (PyRet.retNone, dictSet nb title (Note.replace n newBody))

/-- `NoteBook.attach_to_contact`: raises `KeyError` when the title is absent,
else delegates to `Note.attach_to_contact` on the stored note. -/
def attach_to_contact (nb : NoteBook) (title contact_name : String) : Except PyError NoteBook :=
  match dictGet nb title with
  | none => Except.error (PyError.keyError ("Note with title " ++ title ++ " not found"))
  | some n => Except.map (fun n2 => dictSet nb title n2) (Note.attach_to_contact n contact_name)

/-- `NoteBook.add_tag`: `self.data[title].add_tag(tag)`; the bare dict indexing
raises `KeyError(title)` when the title is absent. -/
def add_tag (nb : NoteBook) (title tag : String) : Except PyError NoteBook :=
  match dictGet nb title with
  | none => Except.error (PyError.keyError title)
  | some n => Except.map (fun n2 => dictSet nb title n2) (Note.add_tag n tag)

/-- `NoteBook.remove_tag`: `self.data[title].remove_tag(tag)`, with the same
bare-indexing `KeyError` on a missing title. -/
def remove_tag (nb : NoteBook) (title tag : String) : Except PyError NoteBook :=
  match dictGet nb title with
  | none => Except.error (PyError.keyError title)
  | some n => Except.map (fun n2 => dictSet nb title n2) (Note.remove_tag n tag)

/-- `NoteBook.find`: `self.data.get(title)` — non-throwing lookup. -/
def find (nb : NoteBook) (title : String) : Option Note :=
  dictGet nb title

/-- `NoteBook.show_all`: all notes in store order. -/
def show_all (nb : NoteBook) : List Note :=
  values nb

/-- `NoteBook.find_by_tag`: notes whose tag list contains the tag. -/
def find_by_tag (nb : NoteBook) (tag : String) : List Note :=
  List.filter (fun note => note.tags.contains tag) (values nb)

/-- `NoteBook.show_all_for_contact`: raises when no note references the
contact, else filters. -/
def show_all_for_contact (nb : NoteBook) (contact_name : String) : Except PyError (List Note) :=
  if (values nb).any (fun note => note.contacts.contains contact_name) then
    Except.ok (List.filter (fun note => note.contacts.contains contact_name) (values nb))
  else
    Except.error (PyError.valueError ("No notes found for contact " ++ contact_name))

end NoteBook

/-- Python `q in l` on a list of characters: `q` occurs as a contiguous run
starting at the front. -/
def listLead : List Char → List Char → Bool
  | [], _ => true
  | _ :: _, [] => false
  | a :: as, b :: bs => a == b && listLead as bs

/-- Python substring test `q in s` on character lists: `q` occurs as a
contiguous run somewhere in `l`. -/
def listWithin (q : List Char) : List Char → Bool
  | [] => q == []
  | b :: rest => listLead q (b :: rest) || listWithin q rest

/-- Python `query in note.title` (substring containment on strings). -/
def pyInStr (q s : String) : Bool :=
  listWithin q.toList s.toList

/-- `NoteBook.search`: empty query returns everything; otherwise keep notes
where the query is a substring of title or body, an element of `tags`, or an
element of `contacts` (Python `in` on list/set is element equality). -/
def NoteBook.search (nb : NoteBook) (query : String) : List Note :=
  if query = "" then NoteBook.values nb
  else
    List.filter
      (fun note => pyInStr query note.title || pyInStr query note.body ||
        note.tags.contains query || note.contacts.contains query)
      (NoteBook.values nb)

/-- Modelled from the spec: the method `NoteBook.sort_by_tag` is called by the
command layer (src/actions_notes.py) but its definition is not among the
provided sources.  Spec section 4.1: "sort_by_tag(tag): same filter as
find_by_tag (naming is misleading — it filters, it does not sort across
multiple tags)". -/
def NoteBook.sort_by_tag (nb : NoteBook) (tag : String) : List Note :=
  List.filter (fun note => note.tags.contains tag) (NoteBook.values nb)

namespace Actions

/-- Command-layer `sort_by_tag` (src/actions_notes.py): prints and returns
`notes_book.sort_by_tag(tag)`; we model the returned list. -/
def sort_by_tag (tag : String) (notes_book : NoteBook) : List Note :=
  NoteBook.sort_by_tag notes_book tag

/-- Command-layer `delete_note` (src/actions_notes.py).  Result: the store
after the call, the lines printed, and the exception that propagates.  The
`raise NotFoundWarning(...)` sits after (not under an `else` of) the
successful-deletion branch, so it runs unconditionally. -/
def delete_note (note_title : String) (notes_book : NoteBook) :
    NoteBook × List String × PyError :=
  match NoteBook.find notes_book note_title with
  | some note_in_notebook =>
    match NoteBook.delete notes_book note_title with
    | Except.ok nb2 =>
      (nb2, ["Note " ++ note_in_notebook.title ++ " deleted."],
        PyError.notFoundWarning ("Note with title " ++ note_title))
    | Except.error e => (notes_book, [], e)
  | none => (notes_book, [], PyError.notFoundWarning ("Note with title " ++ note_title))

/-- Command-layer `add_note` (src/actions_notes.py): auto-generates the title
`f"note-{len(notes_book.values()) + 1}"`, adds the note, then attaches it to
the named contact.  Result: store, printed lines, propagated exception. -/
def add_note (name note : String) (now : String) (notes_book : NoteBook) :
    NoteBook × List String × Option PyError :=
  let note_title := "note-" ++ toString ((NoteBook.values notes_book).length + 1)
  let nb1 := NoteBook.add notes_book note_title note Option.none Option.none now
  match NoteBook.attach_to_contact nb1 note_title name with
  | Except.ok nb2 => (nb2, ["Note added."], Option.none)
  | Except.error e => (nb1, [], some e)

end Actions

/-- The note produced by one successful `set.add` step of
`Note.attach_to_contact`: insert the name only when it is absent. -/
def attachOnce (n : Note) (c : String) : Note :=
  { n with contacts := if n.contacts.contains c then n.contacts else n.contacts ++ [c] }

/-- Sample note used by the concrete witnesses: default (set-typed, empty)
contacts, a single tag. -/
def wNote : Note :=
  { title := "T", body := "y", creation_date := "", tags := ["u"],
    contacts := [], contactsIsSet := true }

/-- Sample one-note store used by the concrete witnesses. -/
def wBook : NoteBook := [("T", wNote)]

/-- A note carrying the same tag twice (duplicates are allowed in `tags`). -/
def dNote : Note :=
  { title := "T", body := "b", creation_date := "", tags := ["u", "u"],
    contacts := [], contactsIsSet := true }

/-- Store holding `dNote`, for the duplicate-tag counterexample. -/
def dBook : NoteBook := [("T", dNote)]

/-- Scenario store: one `add_note` call on the empty store. -/
def s1 : NoteBook := (Actions.add_note "a" "x" "" []).1

/-- Scenario store: a second `add_note` call. -/
def s2 : NoteBook := (Actions.add_note "b" "y" "" s1).1

/-- Scenario store: the first auto-titled note deleted from `s2`. -/
def s3 : NoteBook := dictDelete s2 "note-1"

/-! ### Helper lemmas about the dict model and the substring test -/

theorem dictGet_dictSet_self (d : NoteBook) (k : String) (v : Note) :
    dictGet (dictSet d k v) k = some v := by
  induction d with
  | nil => simp [dictSet, dictGet]
  | cons p rest ih =>
    by_cases h : p.1 = k
    · simp [dictSet, h, dictGet]
    · simp [dictSet, h, dictGet, ih]

theorem dictGet_dictSet_ne (d : NoteBook) {k k2 : String} (v : Note) (h : k2 ≠ k) :
    dictGet (dictSet d k v) k2 = dictGet d k2 := by
  have hk : ¬ k = k2 := fun e => h e.symm
  induction d with
  | nil => simp [dictSet, dictGet, hk]
  | cons p rest ih =>
    by_cases hp : p.1 = k
    · simp [dictSet, hp, dictGet, hk]
    · simp [dictSet, hp, dictGet, ih]

theorem dictSet_eq_self {d : NoteBook} {k : String} {v : Note}
    (h : dictGet d k = some v) : dictSet d k v = d := by
  induction d with
  | nil => simp [dictGet] at h
  | cons p rest ih =>
    obtain ⟨p1, p2⟩ := p
    by_cases hk : p1 = k
    · simp [dictGet, hk] at h
      simp [dictSet, hk, h]
    · simp [dictGet, hk] at h
      simp [dictSet, hk, ih h]

theorem mem_values_dictSet (d : NoteBook) (k : String) (v : Note) :
    v ∈ NoteBook.values (dictSet d k v) := by
  induction d with
  | nil => simp [dictSet, NoteBook.values]
  | cons p rest ih =>
    by_cases h : p.1 = k
    · simp [dictSet, h, NoteBook.values]
    · simp only [dictSet, h, if_false, NoteBook.values, List.map_cons, List.mem_cons]
      exact Or.inr (by simpa [NoteBook.values] using ih)

theorem dictGet_eq_none_of_not_mem {d : NoteBook} {k : String}
    (h : k ∉ d.map Prod.fst) : dictGet d k = none := by
  induction d with
  | nil => simp [dictGet]
  | cons p rest ih =>
    simp only [List.map_cons, List.mem_cons, not_or] at h
    have hp : ¬ p.1 = k := fun e => h.1 e.symm
    simp [dictGet, hp, ih h.2]

theorem dictGet_dictDelete_self {d : NoteBook} (k : String)
    (h : (d.map Prod.fst).Nodup) : dictGet (dictDelete d k) k = none := by
  induction d with
  | nil => simp [dictDelete, dictGet]
  | cons p rest ih =>
    simp only [List.map_cons, List.nodup_cons] at h
    by_cases hk : p.1 = k
    · simp only [dictDelete, hk, if_true]
      exact dictGet_eq_none_of_not_mem (hk ▸ h.1)
    · simp [dictDelete, hk, dictGet, ih h.2]

theorem note_add_tag_ok (n : Note) (tag : String) :
    Note.add_tag n tag = Except.ok { n with tags := n.tags ++ [tag] } := by
  have h : ¬ (tag.length < 0 ∧ tag.length > 20) := fun hc => Nat.not_lt_zero _ hc.1
  simp [Note.add_tag, h]

theorem listLead_iff : ∀ (q l : List Char), listLead q l = true ↔ q <+: l
  | [], l => by simp [listLead]
  | a :: as, [] => by simp [listLead]
  | a :: as, b :: bs => by
    simp [listLead, List.cons_prefix_cons, listLead_iff as bs]

theorem listWithin_iff : ∀ (q l : List Char), listWithin q l = true ↔ q <:+: l
  | q, [] => by simp [listWithin, List.infix_nil]
  | q, b :: rest => by
    simp [listWithin, List.infix_cons_iff, listLead_iff, listWithin_iff q rest]

theorem pyInStr_iff (q s : String) : pyInStr q s = true ↔ q.toList <:+: s.toList :=
  listWithin_iff q.toList s.toList

/-! ### Claim theorems -/

/-- C1: on a title absent from the store, `find` returns `none` without
raising, and `delete`, `attach_to_contact`, `add_tag` and `remove_tag` raise a
KeyError; but `edit` and `replace` *return* the KeyError object as an ordinary
value instead of raising it, so those two calls complete without failing —
evaluated here on the empty store and title "x". -/
theorem C1_missing_title_behaviour :
    NoteBook.find ([] : NoteBook) "x" = none
    ∧ NoteBook.delete ([] : NoteBook) "x"
        = Except.error (PyError.keyError "Note with title x not found")
    ∧ NoteBook.attach_to_contact ([] : NoteBook) "x" "c"
        = Except.error (PyError.keyError "Note with title x not found")
    ∧ NoteBook.add_tag ([] : NoteBook) "x" "g" = Except.error (PyError.keyError "x")
    ∧ NoteBook.remove_tag ([] : NoteBook) "x" "g" = Except.error (PyError.keyError "x")
    ∧ NoteBook.edit ([] : NoteBook) "x" "b"
        = (PyRet.retExc (PyError.keyError "Note with title x not found"), ([] : NoteBook))
    ∧ NoteBook.replace ([] : NoteBook) "x" "b"
        = (PyRet.retExc (PyError.keyError "Note with title x not found"), ([] : NoteBook)) := by
  decide

/-- C2: for every tag and store, the command-layer `sort_by_tag` returns
exactly `find_by_tag`'s list of notes — it filters, it does not sort. -/
theorem C2_sort_by_tag_eq_find_by_tag (tag : String) (nb : NoteBook) :
    Actions.sort_by_tag tag nb = NoteBook.find_by_tag nb tag := rfl

/-- C3: for a title present in the store and a tag string of any length,
`add_tag` never raises the tag-length ValueError (the guard
`len(tag) < 0 and len(tag) > 20` is unsatisfiable) and it appends the tag to
the end of the note's tag sequence. -/
theorem C3_add_tag_no_length_error (nb : NoteBook) (T g : String) (n : Note)
    (h : NoteBook.find nb T = some n) :
    ∃ nb2, NoteBook.add_tag nb T g = Except.ok nb2
      ∧ NoteBook.find nb2 T = some { n with tags := n.tags ++ [g] } := by
  have h' : dictGet nb T = some n := h
  refine ⟨dictSet nb T { n with tags := n.tags ++ [g] }, ?_, ?_⟩
  · simp [NoteBook.add_tag, h', note_add_tag_ok, Except.map]
  · exact dictGet_dictSet_self nb T _

/-- Witness for C3: a concrete store, title and an over-long tag. -/
theorem C3_witness :
    NoteBook.find wBook "T" = some wNote
    ∧ ∃ nb2, NoteBook.add_tag wBook "T" "ggggggggggggggggggggggggg" = Except.ok nb2
        ∧ NoteBook.find nb2 "T"
            = some { wNote with tags := wNote.tags ++ ["ggggggggggggggggggggggggg"] } :=
  ⟨rfl, C3_add_tag_no_length_error wBook "T" "ggggggggggggggggggggggggg" wNote rfl⟩

/-- C6: on a stored note, `edit` returns None and leaves the body as the old
body, a single space, then the new text; `replace` returns None and leaves the
body exactly the new text. -/
theorem C6_edit_replace_bodies (nb : NoteBook) (T x : String) (n : Note)
    (h : NoteBook.find nb T = some n) :
    (∃ nb1, NoteBook.edit nb T x = (PyRet.retNone, nb1)
       ∧ ∃ n1, NoteBook.find nb1 T = some n1 ∧ n1.body = n.body ++ " " ++ x)
    ∧ (∃ nb2, NoteBook.replace nb T x = (PyRet.retNone, nb2)
       ∧ ∃ n2, NoteBook.find nb2 T = some n2 ∧ n2.body = x) := by
  have h' : dictGet nb T = some n := h
  constructor
  · exact ⟨dictSet nb T (Note.edit n x), by simp [NoteBook.edit, h'],
      Note.edit n x, dictGet_dictSet_self nb T _, rfl⟩
  · exact ⟨dictSet nb T (Note.replace n x), by simp [NoteBook.replace, h'],
      Note.replace n x, dictGet_dictSet_self nb T _, rfl⟩

/-- Witness for C6: concrete store with body "y", edited with "x". -/
theorem C6_witness :
    (∃ nb1, NoteBook.edit wBook "T" "x" = (PyRet.retNone, nb1)
       ∧ ∃ n1, NoteBook.find nb1 "T" = some n1 ∧ n1.body = wNote.body ++ " " ++ "x")
    ∧ (∃ nb2, NoteBook.replace wBook "T" "x" = (PyRet.retNone, nb2)
       ∧ ∃ n2, NoteBook.find nb2 "T" = some n2 ∧ n2.body = "x") :=
  C6_edit_replace_bodies wBook "T" "x" wNote rfl

/-- C8: `add` followed by `find` returns the freshly built note, whose body is
the supplied body and whose tags and contacts are empty when not supplied;
this holds for every prior store, including one already holding the title, so
an existing note is silently overwritten with no uniqueness error. -/
theorem C8_add_then_find (nb : NoteBook) (T B now : String)
    (tags contacts : Option (List String)) :
    NoteBook.find (NoteBook.add nb T B tags contacts now) T
        = some (Note.init now T B tags contacts)
    ∧ (Note.init now T B tags contacts).body = B
    ∧ (Note.init now T B Option.none Option.none).tags = []
    ∧ (Note.init now T B Option.none Option.none).contacts = [] :=
  ⟨dictGet_dictSet_self nb T _, rfl, rfl, rfl⟩

/-- C4: on a note whose contacts field is the (duplicate-free) Python set it
defaults to, attaching a contact twice succeeds, leaves the store exactly as
after attaching once, and the contact set holds exactly one entry for the
contact. -/
theorem C4_attach_idempotent (nb : NoteBook) (T c : String) (n : Note)
    (h : NoteBook.find nb T = some n) (hset : n.contactsIsSet = true)
    (hcount : List.count c n.contacts ≤ 1) :
    ∃ nb1, NoteBook.attach_to_contact nb T c = Except.ok nb1
      ∧ NoteBook.attach_to_contact nb1 T c = Except.ok nb1
      ∧ ∀ n1, NoteBook.find nb1 T = some n1 → List.count c n1.contacts = 1 := by
  have h' : dictGet nb T = some n := h
  have hatt : Note.attach_to_contact n c = Except.ok (attachOnce n c) := by
    simp [Note.attach_to_contact, attachOnce, hset]
  refine ⟨dictSet nb T (attachOnce n c), ?_, ?_, ?_⟩
  · simp [NoteBook.attach_to_contact, h', hatt, Except.map]
  · have h2 : dictGet (dictSet nb T (attachOnce n c)) T = some (attachOnce n c) :=
      dictGet_dictSet_self nb T _
    have hmem : c ∈ (attachOnce n c).contacts := by
      by_cases hc : c ∈ n.contacts
      · simp [attachOnce, hc]
      · simp [attachOnce, hc]
    have hset2 : (attachOnce n c).contactsIsSet = true := hset
    have hatt2 : ∀ A : Note, c ∈ A.contacts → A.contactsIsSet = true →
        Note.attach_to_contact A c = Except.ok A := by
      intro A hm hs
      obtain ⟨t0, b0, cd0, tg0, cs0, is0⟩ := A
      simp_all [Note.attach_to_contact]
    simp [NoteBook.attach_to_contact, h2, hatt2 _ hmem hset2, Except.map, dictSet_eq_self h2]
  · intro n1 hfind
    have h2 : dictGet (dictSet nb T (attachOnce n c)) T = some (attachOnce n c) :=
      dictGet_dictSet_self nb T _
    have hf : dictGet (dictSet nb T (attachOnce n c)) T = some n1 := hfind
    rw [h2] at hf
    have hn1 : n1 = attachOnce n c := (Option.some_inj.mp hf).symm
    subst hn1
    by_cases hc : c ∈ n.contacts
    · have h1 : 1 ≤ List.count c n.contacts := List.count_pos_iff.mpr hc
      simpa [attachOnce, hc] using Nat.le_antisymm hcount h1
    · have h0 : List.count c n.contacts = 0 := List.count_eq_zero.mpr hc
      simp [attachOnce, hc, List.count_append, h0]

/-- Witness for C4: attach "a" twice to the concrete store. -/
theorem C4_witness :
    NoteBook.find wBook "T" = some wNote ∧ wNote.contactsIsSet = true
    ∧ List.count "a" wNote.contacts ≤ 1
    ∧ ∃ nb1, NoteBook.attach_to_contact wBook "T" "a" = Except.ok nb1
        ∧ NoteBook.attach_to_contact nb1 "T" "a" = Except.ok nb1
        ∧ ∀ n1, NoteBook.find nb1 "T" = some n1 → List.count "a" n1.contacts = 1 :=
  ⟨rfl, rfl, by decide, C4_attach_idempotent wBook "T" "a" wNote rfl rfl (by decide)⟩

/-- C5 counterexample: in a store whose note "T" carries the tag "u" twice,
`remove_tag` succeeds but deletes only one occurrence, so the note titled "T"
is still returned by `find_by_tag "u"` — the claim says it must be excluded. -/
theorem C5_counterexample :
    NoteBook.remove_tag dBook "T" "u" = Except.ok [("T", { dNote with tags := ["u"] })]
    ∧ NoteBook.find [("T", { dNote with tags := ["u"] })] "T" = some { dNote with tags := ["u"] }
    ∧ { dNote with tags := ["u"] } ∈ NoteBook.find_by_tag [("T", { dNote with tags := ["u"] })] "u" := by
  decide

/-- C5 (amended): after `add_tag(T, g)` the note stored at T is returned by
`find_by_tag g`; after a successful `remove_tag(T, g)` the note stored at T is
excluded from `find_by_tag g` provided g occurred at most once in the note's
tag sequence beforehand. -/
theorem C5_amended_tag_membership (nb : NoteBook) (T g : String) (n : Note)
    (h : NoteBook.find nb T = some n) :
    (∀ nb2, NoteBook.add_tag nb T g = Except.ok nb2 →
       ∃ n2, NoteBook.find nb2 T = some n2 ∧ n2 ∈ NoteBook.find_by_tag nb2 g)
    ∧ (List.count g n.tags ≤ 1 →
       ∀ nb2, NoteBook.remove_tag nb T g = Except.ok nb2 →
         ∀ n2, NoteBook.find nb2 T = some n2 → n2 ∉ NoteBook.find_by_tag nb2 g) := by
  have h' : dictGet nb T = some n := h
  constructor
  · intro nb2 hok
    have hnb2 : nb2 = dictSet nb T { n with tags := n.tags ++ [g] } := by
      simp [NoteBook.add_tag, h', note_add_tag_ok, Except.map] at hok
      exact hok.symm
    subst hnb2
    refine ⟨{ n with tags := n.tags ++ [g] }, dictGet_dictSet_self nb T _, ?_⟩
    have hv := mem_values_dictSet nb T { n with tags := n.tags ++ [g] }
    simp [NoteBook.find_by_tag, List.mem_filter]
    exact hv
  · intro hcnt nb2 hok n2 hfind
    by_cases hc : g ∈ n.tags
    · have hrem : Note.remove_tag n g = Except.ok { n with tags := n.tags.erase g } := by
        simp [Note.remove_tag, hc]
      have hnb2 : nb2 = dictSet nb T { n with tags := n.tags.erase g } := by
        simp [NoteBook.remove_tag, h', hrem, Except.map] at hok
        exact hok.symm
      subst hnb2
      have h2 : dictGet (dictSet nb T { n with tags := n.tags.erase g }) T
          = some { n with tags := n.tags.erase g } := dictGet_dictSet_self nb T _
      have hf : dictGet (dictSet nb T { n with tags := n.tags.erase g }) T = some n2 := hfind
      rw [h2] at hf
      have hn2 : n2 = { n with tags := n.tags.erase g } := (Option.some_inj.mp hf).symm
      subst hn2
      have h1 : 1 ≤ List.count g n.tags := List.count_pos_iff.mpr hc
      have hz : List.count g (n.tags.erase g) = 0 := by
        rw [List.count_erase_self]
        omega
      have hnot : g ∉ n.tags.erase g := List.count_eq_zero.mp hz
      intro hin
      simp [NoteBook.find_by_tag, List.mem_filter] at hin
      exact hnot hin.2
    · exfalso
      have hrem : Note.remove_tag n g
          = Except.error (PyError.valueError ("Tag " ++ g ++ " not found")) := by
        simp [Note.remove_tag, hc]
      simp [NoteBook.remove_tag, h', hrem, Except.map] at hok

/-- Witness for C5 (amended): on the concrete one-note store whose note has
tags `["u"]`, adding "u" makes `find_by_tag "u"` include the note, and
removing "u" (from the original store, count 1) excludes it. -/
theorem C5_amended_witness :
    (∃ n2, NoteBook.find [("T", { wNote with tags := ["u", "u"] })] "T" = some n2
        ∧ n2 ∈ NoteBook.find_by_tag [("T", { wNote with tags := ["u", "u"] })] "u")
    ∧ (∀ n2, NoteBook.find [("T", { wNote with tags := ([] : List String) })] "T" = some n2
        → n2 ∉ NoteBook.find_by_tag [("T", { wNote with tags := ([] : List String) })] "u") :=
  ⟨(C5_amended_tag_membership wBook "T" "u" wNote rfl).1 _ (by decide),
   (C5_amended_tag_membership wBook "T" "u" wNote rfl).2 (by decide) _ (by decide)⟩

/-- C7: search with the empty query returns every note in store order; for a
non-empty query, a note is returned exactly when the query is a contiguous
substring of its title or body, or equals one of its tags, or equals one of
its contacts. -/
theorem C7_search_semantics (nb : NoteBook) :
    NoteBook.search nb "" = NoteBook.show_all nb
    ∧ ∀ q : String, q ≠ "" → ∀ n : Note,
        (n ∈ NoteBook.search nb q ↔ n ∈ NoteBook.show_all nb ∧
          (List.IsInfix q.toList n.title.toList ∨ List.IsInfix q.toList n.body.toList ∨
            q ∈ n.tags ∨ q ∈ n.contacts)) := by
  constructor
  · simp [NoteBook.search, NoteBook.show_all]
  · intro q hq n
    simp [NoteBook.search, hq, NoteBook.show_all, List.mem_filter, pyInStr_iff]
    tauto

/-- Witness for C7: the non-empty query "y" matches the concrete note through
its body. -/
theorem C7_witness :
    ("y" : String) ≠ ""
    ∧ (wNote ∈ NoteBook.search wBook "y" ↔ wNote ∈ NoteBook.show_all wBook ∧
        (List.IsInfix "y".toList wNote.title.toList ∨ List.IsInfix "y".toList wNote.body.toList ∨
          "y" ∈ wNote.tags ∨ "y" ∈ wNote.contacts)) :=
  ⟨by decide, (C7_search_semantics wBook).2 "y" (by decide) wNote⟩

/-- C9: the command-layer `delete_note` lets `NotFoundWarning` propagate on
*every* call — the `raise` is unconditional — including when the title exists:
there the note is first removed from the store and the success message is
printed, and the warning is still raised afterwards. -/
theorem C9_delete_note_always_raises (T : String) (nb : NoteBook) :
    (Actions.delete_note T nb).2.2 = PyError.notFoundWarning ("Note with title " ++ T)
    ∧ ((nb.map Prod.fst).Nodup → ∀ n, NoteBook.find nb T = some n →
        NoteBook.find (Actions.delete_note T nb).1 T = none
        ∧ (Actions.delete_note T nb).2.1 = ["Note " ++ n.title ++ " deleted."]) := by
  rcases hget : dictGet nb T with _ | n0
  · constructor
    · simp [Actions.delete_note, NoteBook.find, hget]
    · intro _ n hn
      have : dictGet nb T = some n := hn
      rw [hget] at this
      exact absurd this (by simp)
  · have hdel : NoteBook.delete nb T = Except.ok (dictDelete nb T) := by
      simp [NoteBook.delete, hget]
    constructor
    · simp [Actions.delete_note, NoteBook.find, hget, hdel]
    · intro hnd n hn
      have hsome : dictGet nb T = some n := hn
      rw [hget] at hsome
      have hn0 : n0 = n := Option.some_inj.mp hsome
      subst hn0
      constructor
      · have : NoteBook.find (dictDelete nb T) T = none := dictGet_dictDelete_self T hnd
        simpa [Actions.delete_note, NoteBook.find, hget, hdel] using this
      · simp [Actions.delete_note, NoteBook.find, hget, hdel]

/-- Witness for C9: deleting the existing title "T" from the concrete store
still raises, yet the note is gone and the success line was printed. -/
theorem C9_witness :
    (wBook.map Prod.fst).Nodup
    ∧ NoteBook.find (Actions.delete_note "T" wBook).1 "T" = none
    ∧ (Actions.delete_note "T" wBook).2.1 = ["Note " ++ wNote.title ++ " deleted."] :=
  ⟨by decide, (C9_delete_note_always_raises "T" wBook).2 (by decide) wNote rfl⟩

/-- C10: the command-layer `add_note` names the new note
"note-" followed by the current note count plus one, and attaches it to the
given contact; in the concrete scenario add, add, delete the first, add — the
generated title "note-2" coincides with the surviving note's title, and that
note is silently overwritten (body changes from "y" to "z", the store keeps a
single entry, no error propagates). -/
theorem C10_add_note_autotitle_overwrites :
    (∀ (name note now : String) (nb : NoteBook),
      ∃ nb2, Actions.add_note name note now nb = (nb2, ["Note added."], Option.none)
        ∧ NoteBook.find nb2 ("note-" ++ toString ((NoteBook.values nb).length + 1))
            = some { Note.init now ("note-" ++ toString ((NoteBook.values nb).length + 1))
                       note Option.none Option.none with contacts := [name] })
    ∧ (NoteBook.delete s2 "note-1" = Except.ok s3
       ∧ "note-" ++ toString ((NoteBook.values s3).length + 1) = "note-2"
       ∧ (NoteBook.find s3 "note-2").map Note.body = some "y"
       ∧ (Actions.add_note "c" "z" "" s3).2.2 = Option.none
       ∧ (NoteBook.find (Actions.add_note "c" "z" "" s3).1 "note-2").map Note.body = some "z"
       ∧ (NoteBook.values (Actions.add_note "c" "z" "" s3).1).length = 1) := by
  constructor
  · intro name note now nb
    simp only [Actions.add_note, NoteBook.add]
    generalize "note-" ++ toString ((NoteBook.values nb).length + 1) = t
    have hatt : Note.attach_to_contact (Note.init now t note Option.none Option.none) name
        = Except.ok { Note.init now t note Option.none Option.none with contacts := [name] } :=
      rfl
    have hget1 : dictGet (dictSet nb t (Note.init now t note Option.none Option.none)) t
        = some (Note.init now t note Option.none Option.none) := dictGet_dictSet_self nb t _
    have hattach2 : NoteBook.attach_to_contact
          (dictSet nb t (Note.init now t note Option.none Option.none)) t name
        = Except.ok (dictSet (dictSet nb t (Note.init now t note Option.none Option.none)) t
            { Note.init now t note Option.none Option.none with contacts := [name] }) := by
      simp [NoteBook.attach_to_contact, hget1, hatt, Except.map]
    refine ⟨dictSet (dictSet nb t (Note.init now t note Option.none Option.none)) t
      { Note.init now t note Option.none Option.none with contacts := [name] },
      ?_, dictGet_dictSet_self _ t _⟩
    rw [hattach2]
  · decide
